import Mathlib

/-!
Verification of the eagles clinical-coordination canister
(`src/dfinity_js_backend/src/index.ts`, an Azle/Internet Computer canister).

Modelling choices, each noted at the definition it concerns:
* A `Principal` is an opaque text token; the source only ever compares
  principals by `toText()` equality, which is string equality here.
* Each `StableBTreeMap` is modelled as an association list with unique-key
  map semantics: `insert` replaces in place or appends, `get` finds the
  first entry for the key, `remove` drops every entry for the key
  (a `StableBTreeMap` never holds duplicate keys, so on reachable states
  this coincides with removing the single entry).
* `uuidv4()` is modelled by passing the generated identifier `newId`
  explicitly to every create operation, and the ambient `ic.caller()` by
  passing `caller` explicitly to every update-mode operation.
* `nat64` is modelled as `Nat`: no arithmetic is performed on ages, so
  overflow never matters.
* Candid `text` is `String`; the only falsy `text` in the source's
  `!payload.field` checks is the empty string.
-/

deriving instance DecidableEq for Except

namespace Eagles

/-- The `Message` variant of the source: one constructor per tag, each
carrying its text payload. -/
inductive Message where
  | Success (msg : String)
  | Error (msg : String)
  | NotFound (msg : String)
  | InvalidPayload (msg : String)
  | PaymentFailed (msg : String)
  | PaymentCompleted (msg : String)
  deriving DecidableEq, Repr

/-- Caller identity: an opaque, string-comparable token. The source only
compares principals via `p.toText()`, so textual equality is `=` here. -/
abbrev Principal := String

/-- The `Department` Candid record. -/
structure Department where
  id : String
  name : String
  deriving DecidableEq, Repr

/-- The `Doctor` Candid record. Note: it has no `available` field; the
source's `updateDoctorAvailability` writes one, but it is outside this
declared record type (see that definition). -/
structure Doctor where
  id : String
  owner : Principal
  name : String
  department_id : String
  image : String
  deriving DecidableEq, Repr

/-- The `Patient` Candid record. -/
structure Patient where
  id : String
  owner : Principal
  name : String
  age : Nat
  deriving DecidableEq, Repr

/-- The `Consultation` Candid record. -/
structure Consultation where
  id : String
  patient_id : String
  problem : String
  department_id : String
  deriving DecidableEq, Repr

/-- The `Chat` Candid record. -/
structure Chat where
  id : String
  patient_id : String
  doctor_id : String
  message : String
  timestamp : String
  deriving DecidableEq, Repr

/-- `CreateDepartmentPayload`. -/
structure CreateDepartmentPayload where
  name : String
  deriving DecidableEq, Repr

/-- `CreateDoctorPayload`. All three fields are required by the Candid
record type; a decoded payload always carries all of them, and never an
`owner` or `id` field. -/
structure CreateDoctorPayload where
  name : String
  department_id : String
  image : String
  deriving DecidableEq, Repr

/-- `CreatePatientPayload`. Both fields are required by the Candid record
type; a decoded payload always carries both, and never an `owner` or `id`
field. -/
structure CreatePatientPayload where
  name : String
  age : Nat
  deriving DecidableEq, Repr

/-- `CreateConsultationPayload`. -/
structure CreateConsultationPayload where
  patient_id : String
  problem : String
  department_id : String
  deriving DecidableEq, Repr

/-- `CreateChatPayload`. -/
structure CreateChatPayload where
  patient_id : String
  doctor_id : String
  message : String
  timestamp : String
  deriving DecidableEq, Repr

/-- Insert into an association list: replace the first entry with this key
in place, or append at the end if the key is absent. -/
def insertE {V : Type} : List (String × V) → String → V → List (String × V)
  | [], k, v => [(k, v)]
  | e :: t, k, v => if e.1 = k then (k, v) :: t else e :: insertE t k v

/-- Lookup in an association list: value of the first entry with this key. -/
def getE {V : Type} : List (String × V) → String → Option V
  | [], _ => none
  | e :: t, k => if e.1 = k then some e.2 else getE t k

/-- Remove every entry with this key from an association list. A
`StableBTreeMap` never holds duplicate keys, so on states reachable
through the canister operations this removes at most one entry. -/
def removeE {V : Type} : List (String × V) → String → List (String × V)
  | [], _ => []
  | e :: t, k => if e.1 = k then removeE t k else e :: removeE t k

/-- A `StableBTreeMap(idx, text, V)` instance: a keyed collection with a
stable value order, modelled as an association list. -/
structure Store (V : Type) where
  entries : List (String × V)
  deriving DecidableEq, Repr

/-- `map.get(key)` (as `Opt`, here `Option`). -/
def Store.get {V : Type} (s : Store V) (k : String) : Option V :=
  getE s.entries k

/-- `map.insert(key, value)` — an upsert. -/
def Store.insert {V : Type} (s : Store V) (k : String) (v : V) : Store V :=
  ⟨insertE s.entries k v⟩

/-- `map.remove(key)`. -/
def Store.remove {V : Type} (s : Store V) (k : String) : Store V :=
  ⟨removeE s.entries k⟩

/-- `map.values()` — the value sequence in the store's stable order. -/
def Store.values {V : Type} (s : Store V) : List V :=
  s.entries.map Prod.snd

/-- An empty store. -/
def Store.empty {V : Type} : Store V := ⟨[]⟩

/-- The five durable collections of the canister
(`Departments`, `Doctors`, `Patients`, `Consultations`, `Chats`). -/
structure State where
  departments : Store Department
  doctors : Store Doctor
  patients : Store Patient
  consultations : Store Consultation
  chats : Store Chat
  deriving DecidableEq, Repr

/-- The state with all five stores empty. -/
def emptyState : State :=
  ⟨Store.empty, Store.empty, Store.empty, Store.empty, Store.empty⟩

/-- JavaScript `a.includes(b)` at one position: `needle` is a prefix of
`haystack`. -/
def matchesAt : List Char → List Char → Bool
  | _, [] => true
  | [], _ :: _ => false
  | h :: t, c :: cs => h == c && matchesAt t cs

/-- JavaScript `haystack.includes(needle)`: `needle` occurs as a
contiguous substring of `haystack` (the empty needle always matches). -/
def containsSub : List Char → List Char → Bool
  | [], needle => needle.isEmpty
  | h :: t, needle => matchesAt (h :: t) needle || containsSub t needle

/-- JavaScript `s.toLowerCase().includes(sub.toLowerCase())`:
character-wise ASCII case folding (`Char.toLower`), then substring
containment. Every string the source or the spec exercises is ASCII. -/
def jsLowerIncludes (s sub : String) : Bool :=
  containsSub (s.toList.map Char.toLower) (sub.toList.map Char.toLower)

/-- `createDepartment(payload)` (index.ts:359-378). `!payload.name` is
true exactly for the empty string. `departmentId` (`uuidv4()`) is the
explicit `newId` argument. -/
def createDepartment (newId : String) (payload : CreateDepartmentPayload)
    (st : State) : State × Except Message Department :=
  if payload.name = "" then
    (st, .error (.InvalidPayload "Missing required fields"))
  else
    let department : Department := ⟨newId, payload.name⟩
    ({ st with departments := st.departments.insert newId department },
     .ok department)

/-- `createDoctor(payload)` (index.ts:409-443). The uniqueness scan is
`Doctors.values().some(...)`; `payload.department_id.toString()` is the
identity on `text`. `owner` is set to the ambient `ic.caller()`, passed
here as `caller`. -/
def createDoctor (newId : String) (caller : Principal)
    (payload : CreateDoctorPayload) (st : State) :
    State × Except Message Doctor :=
  if payload.name = "" ∨ payload.department_id = "" ∨ payload.image = "" then
    (st, .error (.InvalidPayload "Missing required fields"))
  else if st.doctors.values.any (fun profile =>
      profile.name == payload.name &&
      profile.department_id == payload.department_id) then
    (st, .error (.InvalidPayload
      "Doctor with this name already exists in the department"))
  else
    let doctor : Doctor :=
      ⟨newId, caller, payload.name, payload.department_id, payload.image⟩
    ({ st with doctors := st.doctors.insert newId doctor }, .ok doctor)

/-- `createPatient(payload)` (index.ts:485-505). The source checks
`!payload.name || payload.age === undefined`; a decoded `nat64` is never
`undefined`, so only the name check can fail. -/
def createPatient (newId : String) (caller : Principal)
    (payload : CreatePatientPayload) (st : State) :
    State × Except Message Patient :=
  if payload.name = "" then
    (st, .error (.InvalidPayload "Missing required fields"))
  else
    let patient : Patient := ⟨newId, caller, payload.name, payload.age⟩
    ({ st with patients := st.patients.insert newId patient }, .ok patient)

/-- `createConsultation(payload)` (index.ts:547-566). -/
def createConsultation (newId : String) (payload : CreateConsultationPayload)
    (st : State) : State × Except Message Consultation :=
  if payload.patient_id = "" ∨ payload.problem = "" ∨
      payload.department_id = "" then
    (st, .error (.InvalidPayload "Missing required fields"))
  else
    let consultation : Consultation :=
      ⟨newId, payload.patient_id, payload.problem, payload.department_id⟩
    ({ st with consultations := st.consultations.insert newId consultation },
     .ok consultation)

/-- `createChat(payload)` (index.ts:597-617). -/
def createChat (newId : String) (payload : CreateChatPayload) (st : State) :
    State × Except Message Chat :=
  if payload.patient_id = "" ∨ payload.doctor_id = "" ∨
      payload.message = "" ∨ payload.timestamp = "" then
    (st, .error (.InvalidPayload "Missing required fields"))
  else
    let chat : Chat := ⟨newId, payload.patient_id, payload.doctor_id,
      payload.message, payload.timestamp⟩
    ({ st with chats := st.chats.insert newId chat }, .ok chat)

/-- `getDepartmentById(departmentId)` (index.ts:381-395). -/
def getDepartmentById (departmentId : String) (st : State) :
    Except Message Department :=
  match st.departments.get departmentId with
  | none => .error (.NotFound
      ("Department with id=" ++ departmentId ++ " not found"))
  | some department => .ok department

/-- `getDoctorById(doctorId)` (index.ts:446-456). -/
def getDoctorById (doctorId : String) (st : State) : Except Message Doctor :=
  match st.doctors.get doctorId with
  | none => .error (.NotFound ("Doctor with id=" ++ doctorId ++ " not found"))
  | some doctor => .ok doctor

/-- `getPatientById(patientId)` (index.ts:508-518). -/
def getPatientById (patientId : String) (st : State) :
    Except Message Patient :=
  match st.patients.get patientId with
  | none => .error (.NotFound
      ("Patient with id=" ++ patientId ++ " not found"))
  | some patient => .ok patient

/-- `getConsultationById(consultationId)` (index.ts:569-583). -/
def getConsultationById (consultationId : String) (st : State) :
    Except Message Consultation :=
  match st.consultations.get consultationId with
  | none => .error (.NotFound
      ("Consultation with id=" ++ consultationId ++ " not found"))
  | some consultation => .ok consultation

/-- `getChatById(chatId)` (index.ts:620-630). -/
def getChatById (chatId : String) (st : State) : Except Message Chat :=
  match st.chats.get chatId with
  | none => .error (.NotFound ("Chat with id=" ++ chatId ++ " not found"))
  | some chat => .ok chat

/-- `getAllDepartments()` (index.ts:398-406): `NotFound` on an empty value
sequence, otherwise the full sequence. -/
def getAllDepartments (st : State) : Except Message (List Department) :=
  if st.departments.values.length = 0 then
    .error (.NotFound "No departments found")
  else .ok st.departments.values

/-- `getAllDoctors()` (index.ts:474-482). -/
def getAllDoctors (st : State) : Except Message (List Doctor) :=
  if st.doctors.values.length = 0 then .error (.NotFound "No doctors found")
  else .ok st.doctors.values

/-- `getAllPatients()` (index.ts:536-544). -/
def getAllPatients (st : State) : Except Message (List Patient) :=
  if st.patients.values.length = 0 then .error (.NotFound "No patients found")
  else .ok st.patients.values

/-- `getAllConsultations()` (index.ts:586-594). -/
def getAllConsultations (st : State) : Except Message (List Consultation) :=
  if st.consultations.values.length = 0 then
    .error (.NotFound "No consultations found")
  else .ok st.consultations.values

/-- `getAllChats()` (index.ts:633-641). -/
def getAllChats (st : State) : Except Message (List Chat) :=
  if st.chats.values.length = 0 then .error (.NotFound "No chats found")
  else .ok st.chats.values

/-- `getDoctorByOwner()` (index.ts:459-471): filter the values on
`doctor.owner.toText() === ic.caller().toText()`; `NotFound` when the
filtered list has length 0, otherwise element `[0]` — a single record.
The matching on the filtered list below is exactly that length-0 test
plus taking index 0. -/
def getDoctorByOwner (caller : Principal) (st : State) :
    Except Message Doctor :=
  match st.doctors.values.filter (fun doctor => doctor.owner == caller) with
  | [] => .error (.NotFound
      ("Doctor profile for owner=" ++ caller ++ " not found"))
  | doctor :: _ => .ok doctor

/-- `getPatientByOwner()` (index.ts:521-533). -/
def getPatientByOwner (caller : Principal) (st : State) :
    Except Message Patient :=
  match st.patients.values.filter (fun patient => patient.owner == caller) with
  | [] => .error (.NotFound
      ("Patient profile for owner=" ++ caller ++ " not found"))
  | patient :: _ => .ok patient

/-- `searchDoctorByName(name)` (index.ts:715-727): case-insensitive
substring match via `toLowerCase().includes(...)` (ASCII case folding in
this model; every string the source or spec exercises is ASCII). -/
def searchDoctorByName (name : String) (st : State) :
    Except Message (List Doctor) :=
  let matchingDoctors := st.doctors.values.filter (fun doctor =>
    jsLowerIncludes doctor.name name)
  if matchingDoctors.length = 0 then
    .error (.NotFound
      ("No doctors found with name containing \x27" ++ name ++ "\x27"))
  else .ok matchingDoctors

/-- `searchDepartmentByName(name)` (index.ts:730-746). -/
def searchDepartmentByName (name : String) (st : State) :
    Except Message (List Department) :=
  let matchingDepartments := st.departments.values.filter (fun department =>
    jsLowerIncludes department.name name)
  if matchingDepartments.length = 0 then
    .error (.NotFound
      ("No departments found with name containing \x27" ++ name ++ "\x27"))
  else .ok matchingDepartments

/-- `updatePatient(patientId, payload)` (index.ts:644-661). The JS spread
`{...stored, ...payload}` overwrites `name` and `age` (both always
present in a decoded `CreatePatientPayload`) and keeps the stored `id`
and `owner`. The ambient caller is never consulted; it is still passed
(ignored) to state caller-independence. -/
def updatePatient (_caller : Principal) (patientId : String)
    (payload : CreatePatientPayload) (st : State) :
    State × Except Message Patient :=
  match st.patients.get patientId with
  | none =>
    (st, .error (.NotFound ("Patient with id=" ++ patientId ++ " not found")))
  | some patient =>
    let updatedPatient : Patient :=
      ⟨patient.id, patient.owner, payload.name, payload.age⟩
    ({ st with patients := st.patients.insert patientId updatedPatient },
     .ok updatedPatient)

/-- `updateDoctor(doctorId, payload)` (index.ts:749-766): spread of the
full `CreateDoctorPayload` over the stored record; `id` and `owner` are
kept, the three payload fields overwritten. Caller passed but ignored,
as in the source. -/
def updateDoctor (_caller : Principal) (doctorId : String)
    (payload : CreateDoctorPayload) (st : State) :
    State × Except Message Doctor :=
  match st.doctors.get doctorId with
  | none =>
    (st, .error (.NotFound ("Doctor with id=" ++ doctorId ++ " not found")))
  | some doctor =>
    let updatedDoctor : Doctor := ⟨doctor.id, doctor.owner, payload.name,
      payload.department_id, payload.image⟩
    ({ st with doctors := st.doctors.insert doctorId updatedDoctor },
     .ok updatedDoctor)

/-- `updateDoctorAvailability(doctorId, availability)` (index.ts:695-712).
The handler builds `{...stored, available: availability}`, but the Candid
`Doctor` record — the value type of the `Doctors` map and the declared
`Ok` type of the method — has no `available` field, so the extra property
is dropped when the value is encoded for storage and for the reply: the
observable stored and returned record is the stored record unchanged,
and the boolean argument has no observable effect. -/
def updateDoctorAvailability (_caller : Principal) (doctorId : String)
    (_availability : Bool) (st : State) : State × Except Message Doctor :=
  match st.doctors.get doctorId with
  | none =>
    (st, .error (.NotFound ("Doctor with id=" ++ doctorId ++ " not found")))
  | some doctor =>
    ({ st with doctors := st.doctors.insert doctorId doctor }, .ok doctor)

/-- `deletePatient(patientId)` (index.ts:664-673). Caller passed but
ignored, as in the source. -/
def deletePatient (_caller : Principal) (patientId : String) (st : State) :
    State × Except Message Message :=
  match st.patients.get patientId with
  | none =>
    (st, .error (.NotFound ("Patient with id=" ++ patientId ++ " not found")))
  | some _ =>
    ({ st with patients := st.patients.remove patientId },
     .ok (.Success ("Patient with id=" ++ patientId ++
       " deleted successfully")))

/-- `deleteDoctor(doctorId)` (index.ts:769-778). -/
def deleteDoctor (_caller : Principal) (doctorId : String) (st : State) :
    State × Except Message Message :=
  match st.doctors.get doctorId with
  | none =>
    (st, .error (.NotFound ("Doctor with id=" ++ doctorId ++ " not found")))
  | some _ =>
    ({ st with doctors := st.doctors.remove doctorId },
     .ok (.Success ("Doctor with id=" ++ doctorId ++ " deleted successfully")))

/-- `deleteDepartment(departmentId)` (index.ts:781-792). -/
def deleteDepartment (_caller : Principal) (departmentId : String)
    (st : State) : State × Except Message Message :=
  match st.departments.get departmentId with
  | none =>
    (st, .error (.NotFound
      ("Department with id=" ++ departmentId ++ " not found")))
  | some _ =>
    ({ st with departments := st.departments.remove departmentId },
     .ok (.Success ("Department with id=" ++ departmentId ++
       " deleted successfully")))

/-! ### Map lemmas for the association-list store -/

theorem getE_insertE_self {V : Type} (l : List (String × V)) (k : String)
    (v : V) : getE (insertE l k v) k = some v := by
  induction l with
  | nil => simp [insertE, getE]
  | cons e t ih =>
    by_cases h : e.1 = k
    · simp [insertE, h, getE]
    · simp [insertE, h, getE, ih]

theorem getE_insertE_ne {V : Type} (l : List (String × V)) (k k2 : String)
    (v : V) (h : k2 ≠ k) : getE (insertE l k v) k2 = getE l k2 := by
  induction l with
  | nil => simp [insertE, getE, Ne.symm h]
  | cons e t ih =>
    by_cases he : e.1 = k
    · simp [insertE, he, getE, Ne.symm h]
    · simp [insertE, he, getE, ih]

theorem getE_removeE_self {V : Type} (l : List (String × V)) (k : String) :
    getE (removeE l k) k = none := by
  induction l with
  | nil => simp [removeE, getE]
  | cons e t ih =>
    by_cases he : e.1 = k
    · simp [removeE, he, ih]
    · simp [removeE, he, getE, ih]

theorem getE_removeE_ne {V : Type} (l : List (String × V)) (k k2 : String)
    (h : k2 ≠ k) : getE (removeE l k) k2 = getE l k2 := by
  induction l with
  | nil => simp [removeE]
  | cons e t ih =>
    by_cases he : e.1 = k
    · simp [removeE, he, getE, Ne.symm h, ih]
    · simp [removeE, he, getE, ih]

theorem Store.get_insert_self {V : Type} (s : Store V) (k : String) (v : V) :
    (s.insert k v).get k = some v :=
  getE_insertE_self s.entries k v

theorem Store.get_insert_ne {V : Type} (s : Store V) (k k2 : String) (v : V)
    (h : k2 ≠ k) : (s.insert k v).get k2 = s.get k2 :=
  getE_insertE_ne s.entries k k2 v h

theorem Store.get_remove_self {V : Type} (s : Store V) (k : String) :
    (s.remove k).get k = none :=
  getE_removeE_self s.entries k

theorem Store.get_remove_ne {V : Type} (s : Store V) (k k2 : String)
    (h : k2 ≠ k) : (s.remove k).get k2 = s.get k2 :=
  getE_removeE_ne s.entries k k2 h

/-! ### Concrete fixtures used by witnesses and counterexamples -/

/-- A department record for concrete evaluations. -/
def cardiology : Department := ⟨"dep1", "Cardiology"⟩

/-- A doctor record for concrete evaluations. -/
def drLee : Doctor := ⟨"doc1", "p1", "Dr. Lee", "dep1", "img.png"⟩

/-- A doctor whose name contains "doe" case-insensitively. -/
def johnDoe : Doctor := ⟨"doc2", "p2", "John Doe", "dep1", "img2.png"⟩

/-- A doctor whose name does not contain "doe". -/
def janeRoe : Doctor := ⟨"doc3", "p3", "Jane Roe", "dep1", "img3.png"⟩

/-- A patient record for concrete evaluations. -/
def alice : Patient := ⟨"pat1", "own1", "Alice", 30⟩

/-- A populated state: one department, three doctors, one patient. -/
def sampleState : State :=
  ⟨⟨[("dep1", cardiology)]⟩,
   ⟨[("doc1", drLee), ("doc2", johnDoe), ("doc3", janeRoe)]⟩,
   ⟨[("pat1", alice)]⟩, Store.empty, Store.empty⟩

/-! ### Claim theorems -/

/-- C1: for every entity type (Department, Doctor, Patient, Consultation,
Chat) and every valid creation payload — all required fields non-empty,
and for Doctor additionally no existing record with the same
(name, department_id) — the create operation returns `Ok` with a record
`R`, and `getXById R.id` on the resulting state returns exactly `R`. -/
theorem createX_then_getXById (st : State) (newId : String)
    (caller : Principal) :
    (∀ pl : CreateDepartmentPayload, pl.name ≠ "" →
      ∃ R : Department, (createDepartment newId pl st).2 = .ok R ∧
        getDepartmentById R.id (createDepartment newId pl st).1 = .ok R)
  ∧ (∀ pl : CreateDoctorPayload,
      pl.name ≠ "" → pl.department_id ≠ "" → pl.image ≠ "" →
      st.doctors.values.any (fun profile =>
        profile.name == pl.name &&
        profile.department_id == pl.department_id) = false →
      ∃ R : Doctor, (createDoctor newId caller pl st).2 = .ok R ∧
        getDoctorById R.id (createDoctor newId caller pl st).1 = .ok R)
  ∧ (∀ pl : CreatePatientPayload, pl.name ≠ "" →
      ∃ R : Patient, (createPatient newId caller pl st).2 = .ok R ∧
        getPatientById R.id (createPatient newId caller pl st).1 = .ok R)
  ∧ (∀ pl : CreateConsultationPayload,
      pl.patient_id ≠ "" → pl.problem ≠ "" → pl.department_id ≠ "" →
      ∃ R : Consultation, (createConsultation newId pl st).2 = .ok R ∧
        getConsultationById R.id (createConsultation newId pl st).1 = .ok R)
  ∧ (∀ pl : CreateChatPayload,
      pl.patient_id ≠ "" → pl.doctor_id ≠ "" → pl.message ≠ "" →
      pl.timestamp ≠ "" →
      ∃ R : Chat, (createChat newId pl st).2 = .ok R ∧
        getChatById R.id (createChat newId pl st).1 = .ok R) := by
  refine ⟨fun pl h => ?_, fun pl h1 h2 h3 h4 => ?_, fun pl h => ?_,
    fun pl h1 h2 h3 => ?_, fun pl h1 h2 h3 h4 => ?_⟩
  · refine ⟨⟨newId, pl.name⟩, ?_, ?_⟩
    · simp [createDepartment, h]
    · simp [createDepartment, h, getDepartmentById, Store.get_insert_self]
  · refine ⟨⟨newId, caller, pl.name, pl.department_id, pl.image⟩, ?_, ?_⟩
    · simp [createDoctor, h1, h2, h3, h4]
    · simp [createDoctor, h1, h2, h3, h4, getDoctorById,
        Store.get_insert_self]
  · refine ⟨⟨newId, caller, pl.name, pl.age⟩, ?_, ?_⟩
    · simp [createPatient, h]
    · simp [createPatient, h, getPatientById, Store.get_insert_self]
  · refine ⟨⟨newId, pl.patient_id, pl.problem, pl.department_id⟩, ?_, ?_⟩
    · simp [createConsultation, h1, h2, h3]
    · simp [createConsultation, h1, h2, h3, getConsultationById,
        Store.get_insert_self]
  · refine ⟨⟨newId, pl.patient_id, pl.doctor_id, pl.message,
      pl.timestamp⟩, ?_, ?_⟩
    · simp [createChat, h1, h2, h3, h4]
    · simp [createChat, h1, h2, h3, h4, getChatById, Store.get_insert_self]

/-- Witness for C1: each of the five create/get round trips at a concrete
valid payload on the empty state. -/
theorem createX_then_getXById_witness :
    (∃ R : Department,
      (createDepartment "id1" ⟨"Cardiology"⟩ emptyState).2 = .ok R ∧
      getDepartmentById R.id
        (createDepartment "id1" ⟨"Cardiology"⟩ emptyState).1 = .ok R)
  ∧ (∃ R : Doctor,
      (createDoctor "id2" "p1" ⟨"Dr. Lee", "dep1", "img.png"⟩
        emptyState).2 = .ok R ∧
      getDoctorById R.id
        (createDoctor "id2" "p1" ⟨"Dr. Lee", "dep1", "img.png"⟩
          emptyState).1 = .ok R)
  ∧ (∃ R : Patient,
      (createPatient "id3" "p1" ⟨"Alice", 30⟩ emptyState).2 = .ok R ∧
      getPatientById R.id
        (createPatient "id3" "p1" ⟨"Alice", 30⟩ emptyState).1 = .ok R)
  ∧ (∃ R : Consultation,
      (createConsultation "id4" ⟨"pat1", "flu", "dep1"⟩ emptyState).2 =
        .ok R ∧
      getConsultationById R.id
        (createConsultation "id4" ⟨"pat1", "flu", "dep1"⟩ emptyState).1 =
        .ok R)
  ∧ (∃ R : Chat,
      (createChat "id5" ⟨"pat1", "doc1", "hello", "t0"⟩ emptyState).2 =
        .ok R ∧
      getChatById R.id
        (createChat "id5" ⟨"pat1", "doc1", "hello", "t0"⟩ emptyState).1 =
        .ok R) :=
  ⟨(createX_then_getXById emptyState "id1" "p1").1 ⟨"Cardiology"⟩
      (by decide),
   (createX_then_getXById emptyState "id2" "p1").2.1
      ⟨"Dr. Lee", "dep1", "img.png"⟩ (by decide) (by decide) (by decide)
      (by decide),
   (createX_then_getXById emptyState "id3" "p1").2.2.1 ⟨"Alice", 30⟩
      (by decide),
   (createX_then_getXById emptyState "id4" "p1").2.2.2.1
      ⟨"pat1", "flu", "dep1"⟩ (by decide) (by decide) (by decide),
   (createX_then_getXById emptyState "id5" "p1").2.2.2.2
      ⟨"pat1", "doc1", "hello", "t0"⟩ (by decide) (by decide) (by decide)
      (by decide)⟩

/-- C2: on any state whose Doctors store already holds a doctor with name
`N` and department `D`, `createDoctor` with payload `(N, D, image)` —
any caller, any non-empty image — leaves the state unchanged and returns
`InvalidPayload` (either the missing-fields message when `N` or `D` is
empty, or the duplicate-doctor message). -/
theorem createDoctor_duplicate_rejected (st : State) (newId : String)
    (caller : Principal) (N D image : String) (himg : image ≠ "")
    (hex : ∃ d ∈ st.doctors.values, d.name = N ∧ d.department_id = D) :
    (createDoctor newId caller ⟨N, D, image⟩ st).1 = st ∧
    ∃ msg, (createDoctor newId caller ⟨N, D, image⟩ st).2 =
      .error (.InvalidPayload msg) := by
  by_cases hN : N = ""
  · exact ⟨by simp [createDoctor, hN],
      ⟨"Missing required fields", by simp [createDoctor, hN]⟩⟩
  · by_cases hD : D = ""
    · exact ⟨by simp [createDoctor, hD],
        ⟨"Missing required fields", by simp [createDoctor, hD]⟩⟩
    · have hscan : st.doctors.values.any (fun profile =>
          profile.name == N && profile.department_id == D) = true := by
        obtain ⟨d, hd, h1, h2⟩ := hex
        exact List.any_eq_true.mpr ⟨d, hd, by simp [h1, h2]⟩
      exact ⟨by simp [createDoctor, hN, hD, himg, hscan],
        ⟨"Doctor with this name already exists in the department",
         by simp [createDoctor, hN, hD, himg, hscan]⟩⟩

/-- Witness for C2: re-creating "John Doe" in department "dep1" — already
present in `sampleState` — under a fresh caller and a different image is
rejected with `InvalidPayload` and does not change the state. -/
theorem createDoctor_duplicate_rejected_witness :
    (createDoctor "id9" "p9" ⟨"John Doe", "dep1", "other.png"⟩
      sampleState).1 = sampleState ∧
    ∃ msg, (createDoctor "id9" "p9" ⟨"John Doe", "dep1", "other.png"⟩
      sampleState).2 = .error (.InvalidPayload msg) :=
  createDoctor_duplicate_rejected sampleState "id9" "p9" "John Doe" "dep1"
    "other.png" (by decide) (by decide)

/-- C3: for each entity type, `getAllX` on a state whose store is empty
returns `NotFound` (not an empty list), and after one successful create
on such a state it returns the one-element list holding exactly the
created record. -/
theorem getAllX_empty_then_singleton (st : State) (newId : String)
    (caller : Principal) :
    (st.departments.entries = [] →
      getAllDepartments st = .error (.NotFound "No departments found") ∧
      ∀ pl : CreateDepartmentPayload, pl.name ≠ "" →
        getAllDepartments (createDepartment newId pl st).1 =
          .ok [⟨newId, pl.name⟩])
  ∧ (st.doctors.entries = [] →
      getAllDoctors st = .error (.NotFound "No doctors found") ∧
      ∀ pl : CreateDoctorPayload,
        pl.name ≠ "" → pl.department_id ≠ "" → pl.image ≠ "" →
        getAllDoctors (createDoctor newId caller pl st).1 =
          .ok [⟨newId, caller, pl.name, pl.department_id, pl.image⟩])
  ∧ (st.patients.entries = [] →
      getAllPatients st = .error (.NotFound "No patients found") ∧
      ∀ pl : CreatePatientPayload, pl.name ≠ "" →
        getAllPatients (createPatient newId caller pl st).1 =
          .ok [⟨newId, caller, pl.name, pl.age⟩])
  ∧ (st.consultations.entries = [] →
      getAllConsultations st = .error (.NotFound "No consultations found") ∧
      ∀ pl : CreateConsultationPayload,
        pl.patient_id ≠ "" → pl.problem ≠ "" → pl.department_id ≠ "" →
        getAllConsultations (createConsultation newId pl st).1 =
          .ok [⟨newId, pl.patient_id, pl.problem, pl.department_id⟩])
  ∧ (st.chats.entries = [] →
      getAllChats st = .error (.NotFound "No chats found") ∧
      ∀ pl : CreateChatPayload,
        pl.patient_id ≠ "" → pl.doctor_id ≠ "" → pl.message ≠ "" →
        pl.timestamp ≠ "" →
        getAllChats (createChat newId pl st).1 =
          .ok [⟨newId, pl.patient_id, pl.doctor_id, pl.message,
            pl.timestamp⟩]) := by
  refine ⟨fun hemp => ⟨?_, fun pl h => ?_⟩,
    fun hemp => ⟨?_, fun pl h1 h2 h3 => ?_⟩,
    fun hemp => ⟨?_, fun pl h => ?_⟩,
    fun hemp => ⟨?_, fun pl h1 h2 h3 => ?_⟩,
    fun hemp => ⟨?_, fun pl h1 h2 h3 h4 => ?_⟩⟩
  · simp [getAllDepartments, Store.values, hemp]
  · simp [createDepartment, h, getAllDepartments, Store.insert,
      Store.values, hemp, insertE]
  · simp [getAllDoctors, Store.values, hemp]
  · simp [createDoctor, h1, h2, h3, getAllDoctors, Store.insert,
      Store.values, hemp, insertE]
  · simp [getAllPatients, Store.values, hemp]
  · simp [createPatient, h, getAllPatients, Store.insert, Store.values,
      hemp, insertE]
  · simp [getAllConsultations, Store.values, hemp]
  · simp [createConsultation, h1, h2, h3, getAllConsultations,
      Store.insert, Store.values, hemp, insertE]
  · simp [getAllChats, Store.values, hemp]
  · simp [createChat, h1, h2, h3, h4, getAllChats, Store.insert,
      Store.values, hemp, insertE]

/-- Witness for C3: the empty-store `NotFound` and the one-record
singleton for each entity type, starting from the empty state. -/
theorem getAllX_empty_then_singleton_witness :
    (getAllDepartments emptyState = .error (.NotFound "No departments found")
      ∧ getAllDepartments
          (createDepartment "id1" ⟨"Cardiology"⟩ emptyState).1 =
        .ok [⟨"id1", "Cardiology"⟩])
  ∧ (getAllDoctors emptyState = .error (.NotFound "No doctors found")
      ∧ getAllDoctors
          (createDoctor "id2" "p1" ⟨"Dr. Lee", "dep1", "img.png"⟩
            emptyState).1 =
        .ok [⟨"id2", "p1", "Dr. Lee", "dep1", "img.png"⟩])
  ∧ (getAllPatients emptyState = .error (.NotFound "No patients found")
      ∧ getAllPatients (createPatient "id3" "p1" ⟨"Alice", 30⟩
          emptyState).1 = .ok [⟨"id3", "p1", "Alice", 30⟩])
  ∧ (getAllConsultations emptyState =
        .error (.NotFound "No consultations found")
      ∧ getAllConsultations
          (createConsultation "id4" ⟨"pat1", "flu", "dep1"⟩ emptyState).1 =
        .ok [⟨"id4", "pat1", "flu", "dep1"⟩])
  ∧ (getAllChats emptyState = .error (.NotFound "No chats found")
      ∧ getAllChats
          (createChat "id5" ⟨"pat1", "doc1", "hello", "t0"⟩ emptyState).1 =
        .ok [⟨"id5", "pat1", "doc1", "hello", "t0"⟩]) := by
  have h := getAllX_empty_then_singleton emptyState "id1" "p1"
  have h2 := getAllX_empty_then_singleton emptyState "id2" "p1"
  have h3 := getAllX_empty_then_singleton emptyState "id3" "p1"
  have h4 := getAllX_empty_then_singleton emptyState "id4" "p1"
  have h5 := getAllX_empty_then_singleton emptyState "id5" "p1"
  exact ⟨⟨(h.1 rfl).1, (h.1 rfl).2 ⟨"Cardiology"⟩ (by decide)⟩,
    ⟨(h2.2.1 rfl).1, (h2.2.1 rfl).2 ⟨"Dr. Lee", "dep1", "img.png"⟩
      (by decide) (by decide) (by decide)⟩,
    ⟨(h3.2.2.1 rfl).1, (h3.2.2.1 rfl).2 ⟨"Alice", 30⟩ (by decide)⟩,
    ⟨(h4.2.2.2.1 rfl).1, (h4.2.2.2.1 rfl).2 ⟨"pat1", "flu", "dep1"⟩
      (by decide) (by decide) (by decide)⟩,
    ⟨(h5.2.2.2.2 rfl).1, (h5.2.2.2.2 rfl).2 ⟨"pat1", "doc1", "hello", "t0"⟩
      (by decide) (by decide) (by decide) (by decide)⟩⟩

/-- C4 (amended): `updatePatient` / `updateDoctor` return `NotFound` when
the id is absent; when it is present the shallow merge overwrites every
field of the payload record type (`name`/`age`, resp.
`name`/`department_id`/`image` — all of which are always present in a
decoded payload) and preserves the fields outside the payload type
(`id`, `owner`), re-inserting under the same id and returning the merged
record. A payload carrying only `age` is not expressible: `name` is a
required payload field and is always overwritten. -/
theorem update_shallow_merge (st : State) (caller : Principal)
    (id : String) :
    ((st.patients.get id = none → ∀ pl : CreatePatientPayload,
        updatePatient caller id pl st =
          (st, .error (.NotFound ("Patient with id=" ++ id ++
            " not found")))) ∧
     (∀ p : Patient, st.patients.get id = some p →
        ∀ pl : CreatePatientPayload,
        updatePatient caller id pl st =
          ({ st with patients :=
              st.patients.insert id ⟨p.id, p.owner, pl.name, pl.age⟩ },
           .ok ⟨p.id, p.owner, pl.name, pl.age⟩)))
  ∧ ((st.doctors.get id = none → ∀ pl : CreateDoctorPayload,
        updateDoctor caller id pl st =
          (st, .error (.NotFound ("Doctor with id=" ++ id ++
            " not found")))) ∧
     (∀ d : Doctor, st.doctors.get id = some d →
        ∀ pl : CreateDoctorPayload,
        updateDoctor caller id pl st =
          ({ st with doctors := (st.doctors.insert id
              ⟨d.id, d.owner, pl.name, pl.department_id, pl.image⟩) },
           .ok ⟨d.id, d.owner, pl.name, pl.department_id, pl.image⟩))) := by
  refine ⟨⟨fun h pl => ?_, fun p hp pl => ?_⟩,
    ⟨fun h pl => ?_, fun d hd pl => ?_⟩⟩
  · simp [updatePatient, h]
  · simp [updatePatient, hp]
  · simp [updateDoctor, h]
  · simp [updateDoctor, hd]

/-- Witness for C4 (amended): updating `alice` (name "Alice", owner
"own1", age 30) with the payload `(name := "Bob", age := 40)` stores and
returns the record with `id` and `owner` preserved and both payload
fields overwritten. -/
theorem update_shallow_merge_witness :
    updatePatient "c" "pat1" ⟨"Bob", 40⟩ sampleState =
      ({ sampleState with patients :=
          sampleState.patients.insert "pat1" ⟨"pat1", "own1", "Bob", 40⟩ },
       .ok ⟨"pat1", "own1", "Bob", 40⟩) :=
  (update_shallow_merge sampleState "c" "pat1").1.2 alice (by decide)
    ⟨"Bob", 40⟩

/-- C4 counterexample: the claim's instance "updatePatient(id, ⦃age: 40⦄)
preserves the existing name" fails — a payload always carries a `name`
field, so an update that sets `age` to 40 overwrites the stored name
("Alice" here becomes the payload's name, the empty string), instead of
the name-preserving record the claim promises. -/
theorem updatePatient_age_overwrites_name :
    (updatePatient "c" "pat1" ⟨"", 40⟩ sampleState).2 =
      .ok ⟨"pat1", "own1", "", 40⟩ ∧
    (updatePatient "c" "pat1" ⟨"", 40⟩ sampleState).2 ≠
      .ok ⟨"pat1", "own1", "Alice", 40⟩ := by decide

/-- C5 (amended): no update payload carries an `owner` field —
`CreatePatientPayload` is `(name, age)` and `CreateDoctorPayload` is
`(name, department_id, image)` — so `updatePatient` and `updateDoctor`
always preserve the stored record's `owner`, both in the returned record
and in the store. -/
theorem update_preserves_owner (st : State) (caller : Principal)
    (id : String) :
    (∀ (pl : CreateDoctorPayload) (d0 : Doctor),
      st.doctors.get id = some d0 →
      ∃ d1 : Doctor, (updateDoctor caller id pl st).2 = .ok d1 ∧
        d1.owner = d0.owner ∧
        (updateDoctor caller id pl st).1.doctors.get id = some d1)
  ∧ (∀ (pl : CreatePatientPayload) (p0 : Patient),
      st.patients.get id = some p0 →
      ∃ p1 : Patient, (updatePatient caller id pl st).2 = .ok p1 ∧
        p1.owner = p0.owner ∧
        (updatePatient caller id pl st).1.patients.get id = some p1) := by
  constructor
  · intro pl d0 h
    refine ⟨⟨d0.id, d0.owner, pl.name, pl.department_id, pl.image⟩,
      ?_, rfl, ?_⟩
    · simp [updateDoctor, h]
    · simp [updateDoctor, h, Store.get_insert_self]
  · intro pl p0 h
    refine ⟨⟨p0.id, p0.owner, pl.name, pl.age⟩, ?_, rfl, ?_⟩
    · simp [updatePatient, h]
    · simp [updatePatient, h, Store.get_insert_self]

/-- Witness for C5 (amended): updating `drLee` (owner "p1") with a full
doctor payload returns and stores a record whose owner is still "p1". -/
theorem update_preserves_owner_witness :
    ∃ d1 : Doctor,
      (updateDoctor "attacker" "doc1"
        ⟨"Dr. Lee II", "dep2", "new.png"⟩ sampleState).2 = .ok d1 ∧
      d1.owner = drLee.owner ∧
      (updateDoctor "attacker" "doc1"
        ⟨"Dr. Lee II", "dep2", "new.png"⟩
        sampleState).1.doctors.get "doc1" = some d1 :=
  (update_preserves_owner sampleState "attacker" "doc1").1
    ⟨"Dr. Lee II", "dep2", "new.png"⟩ drLee (by decide)

/-- C5 counterexample (negation of the claim as stated): there is no
state, caller, id and update payload for which `updateDoctor` or
`updatePatient` succeeds and returns a record whose `owner` differs from
the stored one — the claimed owner-overwriting payload does not exist,
because the payload record types have no `owner` field. -/
theorem no_update_payload_overwrites_owner :
    (¬ ∃ (st : State) (caller id : String) (pl : CreateDoctorPayload)
        (d0 d1 : Doctor), st.doctors.get id = some d0 ∧
        (updateDoctor caller id pl st).2 = .ok d1 ∧ d1.owner ≠ d0.owner)
  ∧ (¬ ∃ (st : State) (caller id : String) (pl : CreatePatientPayload)
        (p0 p1 : Patient), st.patients.get id = some p0 ∧
        (updatePatient caller id pl st).2 = .ok p1 ∧
        p1.owner ≠ p0.owner) := by
  constructor
  · rintro ⟨st, caller, id, pl, d0, d1, h0, hok, hne⟩
    simp [updateDoctor, h0] at hok
    rw [← hok] at hne
    exact hne rfl
  · rintro ⟨st, caller, id, pl, p0, p1, h0, hok, hne⟩
    simp [updatePatient, h0] at hok
    rw [← hok] at hne
    exact hne rfl

/-- C6: for Department, Doctor and Patient, deleting a present id returns
the `Success` message and removes exactly that record: the id no longer
resolves, every other key in the same store is untouched, and the other
four stores are equal to before; a subsequent `getXById` and a second
`deleteX` on the same id both return `NotFound`, and deleting an absent
id returns `NotFound` without changing the state. -/
theorem deleteX_removes_exactly_one (st : State) (caller : Principal)
    (id : String) :
    ((st.doctors.get id = none →
       deleteDoctor caller id st =
         (st, .error (.NotFound ("Doctor with id=" ++ id ++
           " not found")))) ∧
     (∀ d : Doctor, st.doctors.get id = some d →
       (deleteDoctor caller id st).2 =
         .ok (.Success ("Doctor with id=" ++ id ++
           " deleted successfully")) ∧
       (deleteDoctor caller id st).1.doctors.get id = none ∧
       (∀ k, k ≠ id →
         (deleteDoctor caller id st).1.doctors.get k = st.doctors.get k) ∧
       (deleteDoctor caller id st).1.departments = st.departments ∧
       (deleteDoctor caller id st).1.patients = st.patients ∧
       (deleteDoctor caller id st).1.consultations = st.consultations ∧
       (deleteDoctor caller id st).1.chats = st.chats ∧
       getDoctorById id (deleteDoctor caller id st).1 =
         .error (.NotFound ("Doctor with id=" ++ id ++ " not found")) ∧
       deleteDoctor caller id (deleteDoctor caller id st).1 =
         ((deleteDoctor caller id st).1,
          .error (.NotFound ("Doctor with id=" ++ id ++ " not found")))))
  ∧ ((st.departments.get id = none →
       deleteDepartment caller id st =
         (st, .error (.NotFound ("Department with id=" ++ id ++
           " not found")))) ∧
     (∀ d : Department, st.departments.get id = some d →
       (deleteDepartment caller id st).2 =
         .ok (.Success ("Department with id=" ++ id ++
           " deleted successfully")) ∧
       (deleteDepartment caller id st).1.departments.get id = none ∧
       (∀ k, k ≠ id →
         (deleteDepartment caller id st).1.departments.get k =
           st.departments.get k) ∧
       (deleteDepartment caller id st).1.doctors = st.doctors ∧
       (deleteDepartment caller id st).1.patients = st.patients ∧
       (deleteDepartment caller id st).1.consultations =
         st.consultations ∧
       (deleteDepartment caller id st).1.chats = st.chats ∧
       getDepartmentById id (deleteDepartment caller id st).1 =
         .error (.NotFound ("Department with id=" ++ id ++
           " not found")) ∧
       deleteDepartment caller id (deleteDepartment caller id st).1 =
         ((deleteDepartment caller id st).1,
          .error (.NotFound ("Department with id=" ++ id ++
            " not found")))))
  ∧ ((st.patients.get id = none →
       deletePatient caller id st =
         (st, .error (.NotFound ("Patient with id=" ++ id ++
           " not found")))) ∧
     (∀ p : Patient, st.patients.get id = some p →
       (deletePatient caller id st).2 =
         .ok (.Success ("Patient with id=" ++ id ++
           " deleted successfully")) ∧
       (deletePatient caller id st).1.patients.get id = none ∧
       (∀ k, k ≠ id →
         (deletePatient caller id st).1.patients.get k =
           st.patients.get k) ∧
       (deletePatient caller id st).1.departments = st.departments ∧
       (deletePatient caller id st).1.doctors = st.doctors ∧
       (deletePatient caller id st).1.consultations = st.consultations ∧
       (deletePatient caller id st).1.chats = st.chats ∧
       getPatientById id (deletePatient caller id st).1 =
         .error (.NotFound ("Patient with id=" ++ id ++ " not found")) ∧
       deletePatient caller id (deletePatient caller id st).1 =
         ((deletePatient caller id st).1,
          .error (.NotFound ("Patient with id=" ++ id ++
            " not found"))))) := by
  refine ⟨⟨fun h => ?_, fun d hd => ?_⟩, ⟨fun h => ?_, fun d hd => ?_⟩,
    ⟨fun h => ?_, fun p hp => ?_⟩⟩
  · simp [deleteDoctor, h]
  · refine ⟨by simp [deleteDoctor, hd], by
      simp [deleteDoctor, hd, Store.get_remove_self],
      fun k hk => by simp [deleteDoctor, hd, Store.get_remove_ne _ _ _ hk],
      by simp [deleteDoctor, hd], by simp [deleteDoctor, hd],
      by simp [deleteDoctor, hd], by simp [deleteDoctor, hd],
      by simp [deleteDoctor, hd, getDoctorById, Store.get_remove_self],
      by simp [deleteDoctor, hd, Store.get_remove_self]⟩
  · simp [deleteDepartment, h]
  · refine ⟨by simp [deleteDepartment, hd], by
      simp [deleteDepartment, hd, Store.get_remove_self],
      fun k hk => by
        simp [deleteDepartment, hd, Store.get_remove_ne _ _ _ hk],
      by simp [deleteDepartment, hd], by simp [deleteDepartment, hd],
      by simp [deleteDepartment, hd], by simp [deleteDepartment, hd],
      by simp [deleteDepartment, hd, getDepartmentById,
        Store.get_remove_self],
      by simp [deleteDepartment, hd, Store.get_remove_self]⟩
  · simp [deletePatient, h]
  · refine ⟨by simp [deletePatient, hp], by
      simp [deletePatient, hp, Store.get_remove_self],
      fun k hk => by simp [deletePatient, hp, Store.get_remove_ne _ _ _ hk],
      by simp [deletePatient, hp], by simp [deletePatient, hp],
      by simp [deletePatient, hp], by simp [deletePatient, hp],
      by simp [deletePatient, hp, getPatientById, Store.get_remove_self],
      by simp [deletePatient, hp, Store.get_remove_self]⟩

/-- Witness for C6: deleting doctor "doc1" from `sampleState` succeeds,
removes only that record (doctor "doc2" and the other stores are
untouched), and the follow-up lookup and second delete return
`NotFound`. -/
theorem deleteX_removes_exactly_one_witness :
    (deleteDoctor "c" "doc1" sampleState).2 =
      .ok (.Success ("Doctor with id=" ++ "doc1" ++
        " deleted successfully")) ∧
    (deleteDoctor "c" "doc1" sampleState).1.doctors.get "doc1" = none ∧
    (deleteDoctor "c" "doc1" sampleState).1.doctors.get "doc2" =
      sampleState.doctors.get "doc2" ∧
    (deleteDoctor "c" "doc1" sampleState).1.patients =
      sampleState.patients ∧
    getDoctorById "doc1" (deleteDoctor "c" "doc1" sampleState).1 =
      .error (.NotFound ("Doctor with id=" ++ "doc1" ++ " not found")) ∧
    deleteDoctor "c" "doc1" (deleteDoctor "c" "doc1" sampleState).1 =
      ((deleteDoctor "c" "doc1" sampleState).1,
       .error (.NotFound ("Doctor with id=" ++ "doc1" ++ " not found"))) := by
  have h := (deleteX_removes_exactly_one sampleState "c" "doc1").1.2 drLee
    (by decide)
  exact ⟨h.1, h.2.1, h.2.2.1 "doc2" (by decide), h.2.2.2.2.1,
    h.2.2.2.2.2.2.2.1, h.2.2.2.2.2.2.2.2⟩

/-- C7: `getDoctorByOwner` / `getPatientByOwner` return `NotFound` when
no stored record's owner textually equals the caller, and otherwise
return exactly the first record, in the store's value order, whose owner
equals the caller — a single record (the result type carries one record,
never a list), even when the caller owns several. -/
theorem getXByOwner_first_match (st : State) (caller : Principal) :
    ((∀ d ∈ st.doctors.values, d.owner ≠ caller) →
        getDoctorByOwner caller st = .error (.NotFound
          ("Doctor profile for owner=" ++ caller ++ " not found")))
  ∧ (∀ (l1 : List Doctor) (d : Doctor) (l2 : List Doctor),
      st.doctors.values = l1 ++ d :: l2 → d.owner = caller →
      (∀ x ∈ l1, x.owner ≠ caller) →
      getDoctorByOwner caller st = .ok d)
  ∧ ((∀ p ∈ st.patients.values, p.owner ≠ caller) →
        getPatientByOwner caller st = .error (.NotFound
          ("Patient profile for owner=" ++ caller ++ " not found")))
  ∧ (∀ (l1 : List Patient) (p : Patient) (l2 : List Patient),
      st.patients.values = l1 ++ p :: l2 → p.owner = caller →
      (∀ x ∈ l1, x.owner ≠ caller) →
      getPatientByOwner caller st = .ok p) := by
  refine ⟨fun h => ?_, fun l1 d l2 hval hd hl1 => ?_, fun h => ?_,
    fun l1 p l2 hval hp hl1 => ?_⟩
  · have hfil : st.doctors.values.filter
        (fun doctor => doctor.owner == caller) = [] :=
      List.filter_eq_nil_iff.mpr (fun x hx => by simp [h x hx])
    simp [getDoctorByOwner, hfil]
  · have hfil : st.doctors.values.filter
        (fun doctor => doctor.owner == caller) =
        d :: l2.filter (fun doctor => doctor.owner == caller) := by
      rw [hval, List.filter_append]
      have h1 : l1.filter (fun doctor => doctor.owner == caller) = [] :=
        List.filter_eq_nil_iff.mpr (fun x hx => by simp [hl1 x hx])
      rw [h1, List.filter_cons_of_pos (by simp [hd])]
      simp
    simp [getDoctorByOwner, hfil]
  · have hfil : st.patients.values.filter
        (fun patient => patient.owner == caller) = [] :=
      List.filter_eq_nil_iff.mpr (fun x hx => by simp [h x hx])
    simp [getPatientByOwner, hfil]
  · have hfil : st.patients.values.filter
        (fun patient => patient.owner == caller) =
        p :: l2.filter (fun patient => patient.owner == caller) := by
      rw [hval, List.filter_append]
      have h1 : l1.filter (fun patient => patient.owner == caller) = [] :=
        List.filter_eq_nil_iff.mpr (fun x hx => by simp [hl1 x hx])
      rw [h1, List.filter_cons_of_pos (by simp [hp])]
      simp
    simp [getPatientByOwner, hfil]

/-- Witness for C7: in `sampleState` (owners "p1", "p2", "p3") the caller
"nobody" gets `NotFound`, and caller "p2" gets exactly `johnDoe`, the
first (and only) record it owns. -/
theorem getXByOwner_first_match_witness :
    getDoctorByOwner "nobody" sampleState = .error (.NotFound
      ("Doctor profile for owner=" ++ "nobody" ++ " not found")) ∧
    getDoctorByOwner "p2" sampleState = .ok johnDoe :=
  ⟨(getXByOwner_first_match sampleState "nobody").1 (by decide),
   (getXByOwner_first_match sampleState "p2").2.1 [drLee] johnDoe
     [janeRoe] (by decide) (by decide) (by decide)⟩

/-- C8: `searchDoctorByName` / `searchDepartmentByName` return `NotFound`
exactly when no stored record's name contains the query as a
case-insensitive substring, and on success the returned list holds
exactly the records whose name matches. -/
theorem searchXByName_substring (st : State) (s : String) :
    ((searchDoctorByName s st = .error (.NotFound
        ("No doctors found with name containing \x27" ++ s ++ "\x27")) ↔
      ∀ d ∈ st.doctors.values, jsLowerIncludes d.name s = false)
  ∧ (∀ ds, searchDoctorByName s st = .ok ds →
      ∀ d : Doctor, d ∈ ds ↔
        (d ∈ st.doctors.values ∧ jsLowerIncludes d.name s = true)))
  ∧ ((searchDepartmentByName s st = .error (.NotFound
        ("No departments found with name containing \x27" ++ s ++
          "\x27")) ↔
      ∀ d ∈ st.departments.values, jsLowerIncludes d.name s = false)
  ∧ (∀ ds, searchDepartmentByName s st = .ok ds →
      ∀ d : Department, d ∈ ds ↔
        (d ∈ st.departments.values ∧ jsLowerIncludes d.name s = true))) := by
  constructor
  · constructor
    · by_cases hm : (st.doctors.values.filter
          (fun doctor => jsLowerIncludes doctor.name s)).length = 0
      · have hnil := List.length_eq_zero.mp hm
        constructor
        · intro _ d hd
          simpa using List.filter_eq_nil_iff.mp hnil d hd
        · intro _
          simp [searchDoctorByName, hnil]
      · constructor
        · intro herr
          simp [searchDoctorByName, hm] at herr
        · intro hall
          exact absurd (by
            rw [List.filter_eq_nil_iff.mpr
              (fun d hd => by simp [hall d hd])]
            rfl) hm
    · intro ds hds d
      by_cases hm : (st.doctors.values.filter
          (fun doctor => jsLowerIncludes doctor.name s)).length = 0
      · simp [searchDoctorByName, List.length_eq_zero.mp hm] at hds
      · simp [searchDoctorByName, hm] at hds
        simp [← hds, List.mem_filter]
  · constructor
    · by_cases hm : (st.departments.values.filter
          (fun department => jsLowerIncludes department.name s)).length = 0
      · have hnil := List.length_eq_zero.mp hm
        constructor
        · intro _ d hd
          simpa using List.filter_eq_nil_iff.mp hnil d hd
        · intro _
          simp [searchDepartmentByName, hnil]
      · constructor
        · intro herr
          simp [searchDepartmentByName, hm] at herr
        · intro hall
          exact absurd (by
            rw [List.filter_eq_nil_iff.mpr
              (fun d hd => by simp [hall d hd])]
            rfl) hm
    · intro ds hds d
      by_cases hm : (st.departments.values.filter
          (fun department => jsLowerIncludes department.name s)).length = 0
      · simp [searchDepartmentByName, List.length_eq_zero.mp hm] at hds
      · simp [searchDepartmentByName, hm] at hds
        simp [← hds, List.mem_filter]

/-- Witness for C8: searching "doe" over `sampleState` succeeds with
exactly the doctors whose lowercased name contains "doe": `johnDoe`
("John Doe") is in the result and neither "Dr. Lee" nor "Jane Roe"
matches. -/
theorem searchXByName_substring_witness :
    ∀ d : Doctor, d ∈ [johnDoe] ↔
      (d ∈ sampleState.doctors.values ∧
        jsLowerIncludes d.name "doe" = true) :=
  (searchXByName_substring sampleState "doe").1.2 [johnDoe] (by decide)

/-- C9 (code bug): the Candid `Doctor` record has no `available` field,
so the `available: availability` property written by
`updateDoctorAvailability` is dropped at the Candid boundary; on the
concrete one-doctor state the call — with either boolean — returns the
stored record unchanged and leaves the state unchanged, instead of a
record with `available` set. -/
theorem updateDoctorAvailability_drops_available :
    updateDoctorAvailability "c" "doc1" true sampleState =
      (sampleState, .ok drLee) ∧
    updateDoctorAvailability "c" "doc1" false sampleState =
      (sampleState, .ok drLee) := by decide

/-- C10: the id-addressed mutating operations (`updateDoctor`,
`updatePatient`, `updateDoctorAvailability`, `deleteDoctor`,
`deletePatient`, `deleteDepartment`) never consult the caller identity
or the stored owner: under any two callers they produce the same result
and the same post-state, so any caller can update or delete any
record. -/
theorem mutators_caller_independent (c1 c2 : Principal) (st : State)
    (id : String) :
    (∀ pl : CreateDoctorPayload,
      updateDoctor c1 id pl st = updateDoctor c2 id pl st)
  ∧ (∀ pl : CreatePatientPayload,
      updatePatient c1 id pl st = updatePatient c2 id pl st)
  ∧ (∀ b : Bool, updateDoctorAvailability c1 id b st =
      updateDoctorAvailability c2 id b st)
  ∧ deleteDoctor c1 id st = deleteDoctor c2 id st
  ∧ deletePatient c1 id st = deletePatient c2 id st
  ∧ deleteDepartment c1 id st = deleteDepartment c2 id st :=
  ⟨fun _ => rfl, fun _ => rfl, fun _ => rfl, rfl, rfl, rfl⟩

end Eagles
